import Mathlib

/-!
Verification of the alarm evaluation and lifecycle engine
(`src/core/alarms/alarm_system.py`) against its design specification.

The Python source is shallowly embedded: numeric tag values, timestamps and
thresholds (Python floats) are modelled as integers — the engine only ever
compares, orders and subtracts them, all theorems quantify over them
symbolically, and integers keep every definition kernel-computable for
concrete witnesses. Python dictionaries become association lists (when their
size is observable) or total maps; the `str.format` template mechanism
becomes a list of literal/field items whose rendering can fail (`Except`),
mirroring `KeyError` propagation out of `evaluate_tag`. Python event objects
are aliased between the active-alarm table and the history (acknowledging an
active alarm mutates the record that history also holds), so events live in
an id-indexed store and both collections hold ids.
-/

/-- Alarm severity levels, from `class AlarmState(Enum)`. -/
inductive AlarmState where
  | NORMAL
  | WARNING
  | CRITICAL
  | EMERGENCY
deriving DecidableEq, Repr

/-- Alarm priorities, from `class AlarmPriority(Enum)`. -/
inductive AlarmPriority where
  | LOW
  | MEDIUM
  | HIGH
  | URGENT
deriving DecidableEq, Repr

/-- One piece of a message template: a literal chunk, or a `\x7bfield\x7d`
reference naming the field to substitute. -/
inductive TemplateItem where
  | lit (s : String)
  | field (f : String)
deriving DecidableEq, Repr

/-- Per-tag alarm configuration, from `@dataclass AlarmConfig`.
`message_template` is the parsed form of the Python format string; the
default mirrors the dataclass default. -/
structure AlarmConfig where
  tag_name : String
  description : String
  warning_low : Option ℤ := none
  warning_high : Option ℤ := none
  critical_low : Option ℤ := none
  critical_high : Option ℤ := none
  emergency_low : Option ℤ := none
  emergency_high : Option ℤ := none
  enabled : Bool := true
  deadband : ℤ := 1
  delay_seconds : ℤ := 2
  auto_acknowledge : Bool := false
  priority : AlarmPriority := AlarmPriority.MEDIUM
  message_template : List TemplateItem :=
    [TemplateItem.field "tag_name", TemplateItem.lit ": ",
     TemplateItem.field "description", TemplateItem.lit " - Value: ",
     TemplateItem.field "value"]
  actions : List String := []
deriving DecidableEq, Repr

/-- One confirmed state transition, from `@dataclass AlarmEvent`. -/
structure AlarmEvent where
  id : String
  tag_name : String
  timestamp : ℤ
  state : AlarmState
  previous_state : AlarmState
  value : ℤ
  message : String
  priority : AlarmPriority
  acknowledged : Bool := false
  ack_timestamp : Option ℤ := none
  ack_user : Option String := none
  auto_cleared : Bool := false
deriving DecidableEq, Repr

/-! ### Association lists (Python `dict` with observable size) -/

/-- Lookup in an association list (first matching key), as `d[k]` / `k in d`. -/
def assocGet {α : Type} (l : List (String × α)) (k : String) : Option α :=
  match l with
  | [] => none
  | p :: rest => if p.1 = k then some p.2 else assocGet rest k

/-- `d[k] = v`: replace the value at an existing key in place, otherwise
append the binding (Python dicts keep insertion order). -/
def assocSet {α : Type} (l : List (String × α)) (k : String) (v : α) :
    List (String × α) :=
  match l with
  | [] => [(k, v)]
  | p :: rest => if p.1 = k then (k, v) :: rest else p :: assocSet rest k v

/-- `del d[k]`: remove the binding for a key. -/
def assocErase {α : Type} (l : List (String × α)) (k : String) :
    List (String × α) :=
  match l with
  | [] => []
  | p :: rest => if p.1 = k then assocErase rest k else p :: assocErase rest k

/-! ### The state classifier (`AlarmEngine._determine_alarm_state`) -/

/-- `value >= threshold` when the threshold is set; an unset threshold never
triggers. -/
def breachHigh (t : Option ℤ) (value : ℤ) : Bool :=
  match t with
  | some h => decide (h ≤ value)
  | none => false

/-- `value <= threshold` when the threshold is set; an unset threshold never
triggers. -/
def breachLow (t : Option ℤ) (value : ℤ) : Bool :=
  match t with
  | some l => decide (value ≤ l)
  | none => false

/-- Severity-first classification, from `_determine_alarm_state`: the chain of
early returns checks emergency high, emergency low, critical high, critical
low, warning high, warning low, in that order. -/
def determineAlarmState (config : AlarmConfig) (value : ℤ) : AlarmState :=
  if breachHigh config.emergency_high value then AlarmState.EMERGENCY
  else if breachLow config.emergency_low value then AlarmState.EMERGENCY
  else if breachHigh config.critical_high value then AlarmState.CRITICAL
  else if breachLow config.critical_low value then AlarmState.CRITICAL
  else if breachHigh config.warning_high value then AlarmState.WARNING
  else if breachLow config.warning_low value then AlarmState.WARNING
  else AlarmState.NORMAL

/-- Spec-side predicate: an emergency bound is set and breached. -/
def emergencyBreached (config : AlarmConfig) (value : ℤ) : Bool :=
  breachHigh config.emergency_high value || breachLow config.emergency_low value

/-- Spec-side predicate: a critical bound is set and breached. -/
def criticalBreached (config : AlarmConfig) (value : ℤ) : Bool :=
  breachHigh config.critical_high value || breachLow config.critical_low value

/-- Spec-side predicate: a warning bound is set and breached. -/
def warningBreached (config : AlarmConfig) (value : ℤ) : Bool :=
  breachHigh config.warning_high value || breachLow config.warning_low value

/-! ### Message rendering (`str.format` on the template) -/

/-- Substitute one field reference, as the keyword arguments passed to
`message_template.format(...)` in `_create_alarm_event`; a reference to any
other field raises `KeyError`, modelled as an error result. -/
def renderField (config : AlarmConfig) (value : ℤ) (limit : String)
    (f : String) : Except Unit String :=
  if f = "tag_name" then Except.ok config.tag_name
  else if f = "description" then Except.ok config.description
  else if f = "value" then Except.ok (toString value)
  else if f = "limit" then Except.ok limit
  else Except.error ()

/-- Render a whole template left to right, propagating the first failure. -/
def renderTemplate (config : AlarmConfig) (value : ℤ) (limit : String) :
    List TemplateItem → Except Unit String
  | [] => Except.ok ""
  | TemplateItem.lit s :: rest =>
    match renderTemplate config value limit rest with
    | Except.error e => Except.error e
    | Except.ok b => Except.ok (s ++ b)
  | TemplateItem.field f :: rest =>
    match renderField config value limit f with
    | Except.error e => Except.error e
    | Except.ok a =>
      match renderTemplate config value limit rest with
      | Except.error e => Except.error e
      | Except.ok b => Except.ok (a ++ b)

/-- A field name the substitution set covers. -/
def knownField (f : String) : Bool :=
  f = "tag_name" || f = "description" || f = "value" || f = "limit"

/-- A template whose field references all lie in the substitution set. -/
def templateOk (t : List TemplateItem) : Bool :=
  t.all fun item =>
    match item with
    | TemplateItem.lit _ => true
    | TemplateItem.field f => knownField f

/-! ### Breached limit and event creation -/

/-- The limit reported in the message, from `_get_active_limit`: for the new
level it returns the high threshold whenever one is set, else the low
threshold, else the string N/A. -/
def getActiveLimit (config : AlarmConfig) (state : AlarmState) : String :=
  match state with
  | AlarmState.WARNING =>
    match config.warning_high with
    | some h => toString h
    | none =>
      match config.warning_low with
      | some l => toString l
      | none => "N/A"
  | AlarmState.CRITICAL =>
    match config.critical_high with
    | some h => toString h
    | none =>
      match config.critical_low with
      | some l => toString l
      | none => "N/A"
  | AlarmState.EMERGENCY =>
    match config.emergency_high with
    | some h => toString h
    | none =>
      match config.emergency_low with
      | some l => toString l
      | none => "N/A"
  | AlarmState.NORMAL => "N/A"

/-- The high threshold belonging to a level (none for NORMAL). -/
def levelHigh (config : AlarmConfig) : AlarmState → Option ℤ
  | AlarmState.WARNING => config.warning_high
  | AlarmState.CRITICAL => config.critical_high
  | AlarmState.EMERGENCY => config.emergency_high
  | AlarmState.NORMAL => none

/-- The low threshold belonging to a level (none for NORMAL). -/
def levelLow (config : AlarmConfig) : AlarmState → Option ℤ
  | AlarmState.WARNING => config.warning_low
  | AlarmState.CRITICAL => config.critical_low
  | AlarmState.EMERGENCY => config.emergency_low
  | AlarmState.NORMAL => none

/-- Spec-side limit choice of the amended C6 claim: the high threshold
whenever one is set — independent of which direction was breached — else
the low threshold when set, else N/A. -/
def limitHighFirst (high low : Option ℤ) : String :=
  match high with
  | some h => toString h
  | none =>
    match low with
    | some l => toString l
    | none => "N/A"

/-- Build the event record, from `_create_alarm_event`; a template rendering
failure (`KeyError` from `str.format`) propagates as an error. -/
def createAlarmEvent (config : AlarmConfig) (value : ℤ)
    (new_state previous_state : AlarmState) (now : ℤ) :
    Except Unit AlarmEvent :=
  match renderTemplate config value (getActiveLimit config new_state)
      config.message_template with
  | Except.error e => Except.error e
  | Except.ok message =>
    Except.ok
      { id := config.tag_name ++ "_" ++ toString (now * 1000),
        tag_name := config.tag_name,
        timestamp := now,
        state := new_state,
        previous_state := previous_state,
        value := value,
        message := message,
        priority := config.priority,
        acknowledged := false,
        ack_timestamp := none,
        ack_user := none,
        auto_cleared := decide (new_state = AlarmState.NORMAL) }

/-! ### Engine state -/

/-- The mutable state of one `AlarmEngine` instance. Python event objects are
shared between `active_alarms` and `alarm_history`; the model stores each
event once in the id-indexed `events` store and both collections keep ids,
so a mutation through one alias is visible through the other. The
notification callback list carries no engine state and is omitted. -/
structure EngineState where
  alarms_config : List (String × AlarmConfig)
  current_states : String → AlarmState
  active_alarms : List (String × Nat)
  alarm_history : List Nat
  events : Nat → AlarmEvent
  next_id : Nat
  alarm_timers : String → AlarmState → Option ℤ
  stats_total : Nat
  stats_active : Nat
  stats_acked : Nat
  stats_last_critical : Option ℤ

/-- A fresh engine holding the given registered configurations: as in
`load_config`/`create_default_config`, each config is stored under its own
`tag_name` and that tag's confirmed level starts at NORMAL; no active
alarms, empty history, no pending timers, zeroed statistics. -/
def freshState (cfgs : List AlarmConfig) : EngineState :=
  { alarms_config := cfgs.map fun c => (c.tag_name, c),
    current_states := fun _ => AlarmState.NORMAL,
    active_alarms := [],
    alarm_history := [],
    events := fun _ =>
      { id := "", tag_name := "", timestamp := 0, state := AlarmState.NORMAL,
        previous_state := AlarmState.NORMAL, value := 0, message := "",
        priority := AlarmPriority.MEDIUM },
    next_id := 0,
    alarm_timers := fun _ _ => none,
    stats_total := 0,
    stats_active := 0,
    stats_acked := 0,
    stats_last_critical := none }

/-- `_update_statistics`: bump the event total, recompute the active and
acknowledged-active counts from the active table, and stamp the last
HIGH/URGENT event time. -/
def updateStatistics (s : EngineState) (event : AlarmEvent) : EngineState :=
  { s with
    stats_total := s.stats_total + 1,
    stats_active := s.active_alarms.length,
    stats_acked :=
      (s.active_alarms.filter fun p => (s.events p.2).acknowledged).length,
    stats_last_critical :=
      if event.priority = AlarmPriority.HIGH ∨
          event.priority = AlarmPriority.URGENT then
        some event.timestamp
      else s.stats_last_critical }

/-- `_process_alarm_event`: append the event to history, update the active
table (inserting for a non-NORMAL level; on return to NORMAL, auto-
acknowledge the previous active event when configured, then drop the entry),
then refresh statistics. Returns the id the stored event received.
The configuration lookup cannot miss here — the only caller,
`evaluate_tag`, reaches this point only for configured tags. -/
def processAlarmEvent (s : EngineState) (event : AlarmEvent) (now : ℤ) :
    EngineState × Nat :=
  let nid := s.next_id
  let s1 : EngineState :=
    { s with
      events := fun j => if j = nid then event else s.events j,
      next_id := nid + 1,
      alarm_history := s.alarm_history ++ [nid] }
  let s2 : EngineState :=
    if event.state ≠ AlarmState.NORMAL then
      { s1 with active_alarms := assocSet s1.active_alarms event.tag_name nid }
    else
      match assocGet s1.active_alarms event.tag_name with
      | some oldId =>
        let autoAck : Bool :=
          match assocGet s1.alarms_config event.tag_name with
          | some cfg => cfg.auto_acknowledge
          | none => false
        let s1' : EngineState :=
          if autoAck then
            { s1 with
              events := fun j =>
                if j = oldId then
                  { s1.events oldId with
                    acknowledged := true,
                    ack_timestamp := some now,
                    ack_user := some "SYSTEM" }
                else s1.events j }
          else s1
        { s1' with
          active_alarms := assocErase s1'.active_alarms event.tag_name }
      | none => s1
  (updateStatistics s2 event, nid)

/-- `evaluate_tag`: classify, debounce, and on a confirmed transition create
and process the event. The second component is `ok none` (no event),
`ok (some id)` (the confirmed event's id), or `error` when template
rendering raised; the first component is the engine state the call leaves
behind (on error, the timer deletion has already happened, the rest has
not — mirroring where the Python exception escapes). -/
def evaluateTag (s : EngineState) (tag_name : String) (value now : ℤ) :
    EngineState × Except Unit (Option Nat) :=
  match assocGet s.alarms_config tag_name with
  | none => (s, Except.ok none)
  | some config =>
    if config.enabled = false then (s, Except.ok none)
    else
      let new_state := determineAlarmState config value
      let current_state := s.current_states tag_name
      if new_state = current_state then (s, Except.ok none)
      else
        match s.alarm_timers tag_name new_state with
        | none =>
          ({ s with
             alarm_timers := fun t l =>
               if t = tag_name ∧ l = new_state then some now
               else s.alarm_timers t l },
           Except.ok none)
        | some t0 =>
          if now - t0 < config.delay_seconds then (s, Except.ok none)
          else
            let s1 : EngineState :=
              { s with
                alarm_timers := fun t l =>
                  if t = tag_name ∧ l = new_state then none
                  else s.alarm_timers t l }
            match createAlarmEvent config value new_state current_state now with
            | Except.error e => (s1, Except.error e)
            | Except.ok event =>
              let s2 : EngineState :=
                { s1 with
                  current_states := fun t =>
                    if t = tag_name then new_state else s1.current_states t }
              let r := processAlarmEvent s2 event now
              (r.1, Except.ok (some r.2))

/-- `acknowledge_alarm`: stamp the active entry when one exists (mutating the
shared event record), otherwise report failure and change nothing. -/
def acknowledgeAlarm (s : EngineState) (tag_name user : String) (now : ℤ) :
    EngineState × Bool :=
  match assocGet s.active_alarms tag_name with
  | some i =>
    ({ s with
       events := fun j =>
         if j = i then
           { s.events i with
             acknowledged := true,
             ack_timestamp := some now,
             ack_user := some user }
         else s.events j },
     true)
  | none => (s, false)

/-- The summary returned by `get_statistics`. -/
structure StatsSummary where
  total_alarms : Nat
  active_count : Nat
  acknowledged_count : Nat
  last_critical : Option ℤ
  config_count : Nat
  history_count : Nat
  unacknowledged_count : Nat
deriving DecidableEq, Repr

/-- `get_statistics`: the cached counters plus three values computed at query
time (config count, history size, unacknowledged actives). -/
def getStatistics (s : EngineState) : StatsSummary :=
  { total_alarms := s.stats_total,
    active_count := s.stats_active,
    acknowledged_count := s.stats_acked,
    last_critical := s.stats_last_critical,
    config_count := s.alarms_config.length,
    history_count := s.alarm_history.length,
    unacknowledged_count :=
      (s.active_alarms.filter fun p => !(s.events p.2).acknowledged).length }

/-! ### Operation sequences and the engine invariant -/

/-- One externally triggered engine operation. -/
inductive EngineOp where
  | eval (tag : String) (value now : ℤ)
  | ack (tag user : String) (now : ℤ)

/-- The state an operation leaves behind (the Python engine object persists
whether or not `evaluate_tag` raised). -/
def applyOp (s : EngineState) : EngineOp → EngineState
  | EngineOp.eval tag value now => (evaluateTag s tag value now).1
  | EngineOp.ack tag user now => (acknowledgeAlarm s tag user now).1

/-- Run a sequence of operations from a starting state. -/
def runOps (s : EngineState) (ops : List EngineOp) : EngineState :=
  ops.foldl applyOp s

/-- Invariant maintained by every reachable engine state: configs are keyed
by their own tag name; a tag is a key of the active-alarm table exactly when
its confirmed level is not NORMAL; and no pending timer exists for a tag's
currently confirmed level. -/
def EngineInv (s : EngineState) : Prop :=
  (∀ tag config, assocGet s.alarms_config tag = some config →
    config.tag_name = tag)
  ∧ (∀ tag, assocGet s.active_alarms tag ≠ none ↔
      s.current_states tag ≠ AlarmState.NORMAL)
  ∧ (∀ tag, s.alarm_timers tag (s.current_states tag) = none)

/-! ### Concrete instances used by witnesses and counterexamples -/

/-- A well-formed high-threshold config (the default `engine_temp_1`
registration shape, with an integral template). -/
def cfgW : AlarmConfig :=
  { tag_name := "engine_temp_1", description := "Temperatura Motor 1",
    warning_high := some 90, critical_high := some 110,
    emergency_high := some 130, delay_seconds := 2,
    priority := AlarmPriority.HIGH }

/-- Fresh engine for `cfgW` after one WARNING sample at t = 1: the pending
timer for (engine_temp_1, WARNING) holds 1, nothing is confirmed. -/
def sW1 : EngineState :=
  runOps (freshState [cfgW]) [EngineOp.eval "engine_temp_1" 95 1]

/-- Engine for `cfgW` after WARNING samples at t = 1 and t = 3: the WARNING
transition is confirmed, event 0 is active and unacknowledged. -/
def sW2 : EngineState :=
  runOps (freshState [cfgW])
    [EngineOp.eval "engine_temp_1" 95 1, EngineOp.eval "engine_temp_1" 95 3]

/-- An auto-acknowledge config. -/
def cfgA : AlarmConfig :=
  { tag_name := "pump", description := "Pump", warning_high := some 90,
    delay_seconds := 2, auto_acknowledge := true }

/-- Engine for `cfgA` after a confirmed WARNING (samples at t = 0 and t = 2)
and a first NORMAL sample at t = 3: event 0 is active, the pending timer for
(pump, NORMAL) holds 3. -/
def sA : EngineState :=
  runOps (freshState [cfgA])
    [EngineOp.eval "pump" 95 0, EngineOp.eval "pump" 95 2,
     EngineOp.eval "pump" 50 3]

/-- A config whose template references a field outside the substitution set
(the field name limit_c is not among tag_name, description, value, limit). -/
def cfgB : AlarmConfig :=
  { tag_name := "boiler", description := "Boiler", warning_high := some 90,
    delay_seconds := 2,
    message_template := [TemplateItem.lit "Limit: ",
      TemplateItem.field "limit_c"] }

/-- Engine for `cfgB` after one WARNING sample at t = 0 (pending timer). -/
def sB : EngineState :=
  runOps (freshState [cfgB]) [EngineOp.eval "boiler" 95 0]

/-- A config with both warning thresholds set and a template that renders
exactly the substituted limit. -/
def cfgL : AlarmConfig :=
  { tag_name := "cabin_temp", description := "Cabin",
    warning_low := some 16, warning_high := some 28, delay_seconds := 2,
    message_template := [TemplateItem.field "limit"] }

/-- Engine for `cfgL` after one low-side WARNING sample (value 15) at
t = 0 (pending timer). -/
def sL : EngineState :=
  runOps (freshState [cfgL]) [EngineOp.eval "cabin_temp" 15 0]

/-! ## Theorems -/

/-! ### Association list laws -/

theorem assocGet_set_self {α : Type} (l : List (String × α)) (k : String) (v : α) :
    assocGet (assocSet l k v) k = some v := by
  induction l with
  | nil => simp [assocSet, assocGet]
  | cons p rest ih =>
    unfold assocSet
    by_cases hp : p.1 = k
    · simp [assocGet, hp]
    · simpa [assocGet, hp] using ih

theorem assocGet_set_ne {α : Type} (l : List (String × α)) (k k' : String) (v : α)
    (h : k' ≠ k) : assocGet (assocSet l k v) k' = assocGet l k' := by
  induction l with
  | nil => simp [assocSet, assocGet, Ne.symm h]
  | cons p rest ih =>
    unfold assocSet
    by_cases hp : p.1 = k
    · simp [assocGet, hp, Ne.symm h]
    · by_cases hp' : p.1 = k' <;> simp [assocGet, hp, hp', h, ih]

theorem assocGet_erase_self {α : Type} (l : List (String × α)) (k : String) :
    assocGet (assocErase l k) k = none := by
  induction l with
  | nil => rfl
  | cons p rest ih =>
    unfold assocErase
    by_cases hp : p.1 = k
    · simpa [hp] using ih
    · simpa [assocGet, hp] using ih

theorem assocGet_erase_ne {α : Type} (l : List (String × α)) (k k' : String)
    (h : k' ≠ k) : assocGet (assocErase l k) k' = assocGet l k' := by
  induction l with
  | nil => rfl
  | cons p rest ih =>
    unfold assocErase
    by_cases hp : p.1 = k
    · simpa [assocGet, hp, Ne.symm h] using ih
    · by_cases hp' : p.1 = k' <;> simp [assocGet, hp, hp', h, ih]

/-! ### Rendering laws -/

theorem renderField_ok_of_known (config : AlarmConfig) (value : ℤ)
    (limit : String) (f : String) (h : knownField f = true) :
    ∃ a, renderField config value limit f = Except.ok a := by
  unfold knownField at h
  simp only [Bool.or_eq_true, decide_eq_true_eq] at h
  rcases h with ((h | h) | h) | h <;> subst h <;> exact ⟨_, rfl⟩

theorem renderTemplate_ok_of_templateOk (config : AlarmConfig) (value : ℤ)
    (limit : String) (t : List TemplateItem) (h : templateOk t = true) :
    ∃ m, renderTemplate config value limit t = Except.ok m := by
  induction t with
  | nil => exact ⟨"", rfl⟩
  | cons item rest ih =>
    unfold templateOk at h
    simp only [List.all_cons, Bool.and_eq_true] at h
    obtain ⟨m, hm⟩ := ih h.2
    cases item with
    | lit s => exact ⟨s ++ m, by simp [renderTemplate, hm]⟩
    | field f =>
      obtain ⟨a, ha⟩ := renderField_ok_of_known config value limit f h.1
      exact ⟨a ++ m, by simp [renderTemplate, ha, hm]⟩

/-! ### Behaviour of `_process_alarm_event` -/

theorem processAlarmEvent_frame (s : EngineState) (event : AlarmEvent) (now : ℤ) :
    (processAlarmEvent s event now).2 = s.next_id ∧
    (processAlarmEvent s event now).1.alarms_config = s.alarms_config ∧
    (processAlarmEvent s event now).1.alarm_timers = s.alarm_timers ∧
    (processAlarmEvent s event now).1.current_states = s.current_states ∧
    (processAlarmEvent s event now).1.alarm_history = s.alarm_history ++ [s.next_id] ∧
    (processAlarmEvent s event now).1.next_id = s.next_id + 1 ∧
    ((processAlarmEvent s event now).1.events s.next_id).state = event.state ∧
    ((processAlarmEvent s event now).1.events s.next_id).previous_state
      = event.previous_state ∧
    ((processAlarmEvent s event now).1.events s.next_id).message = event.message ∧
    ((processAlarmEvent s event now).1.events s.next_id).auto_cleared
      = event.auto_cleared := by
  unfold processAlarmEvent updateStatistics
  by_cases hs : event.state = AlarmState.NORMAL
  · simp only [hs, ne_eq, not_true_eq_false, if_false, ite_false, dite_false]
    cases hA : assocGet s.active_alarms event.tag_name with
    | none => simp [hA, hs]
    | some oldId =>
      simp only [hA]
      by_cases hAck : (match assocGet s.alarms_config event.tag_name with
        | some cfg => cfg.auto_acknowledge
        | none => false) = true
      · simp only [hAck, if_true, ite_true]
        by_cases h0 : s.next_id = oldId <;> simp [h0, hs]
      · simp [hAck, hs]
  · simp [hs]

theorem processAlarmEvent_active_nonNormal (s : EngineState)
    (event : AlarmEvent) (now : ℤ) (hs : event.state ≠ AlarmState.NORMAL) :
    (processAlarmEvent s event now).1.active_alarms
      = assocSet s.active_alarms event.tag_name s.next_id := by
  unfold processAlarmEvent updateStatistics
  simp [hs]

theorem processAlarmEvent_active_normal (s : EngineState)
    (event : AlarmEvent) (now : ℤ) (hs : event.state = AlarmState.NORMAL) :
    (processAlarmEvent s event now).1.active_alarms
      = match assocGet s.active_alarms event.tag_name with
        | some _ => assocErase s.active_alarms event.tag_name
        | none => s.active_alarms := by
  unfold processAlarmEvent updateStatistics
  simp only [hs, ne_eq, not_true_eq_false, if_false, ite_false, dite_false]
  cases hA : assocGet s.active_alarms event.tag_name with
  | none => simp [hA]
  | some oldId =>
    simp only [hA]
    by_cases hAck : (match assocGet s.alarms_config event.tag_name with
      | some cfg => cfg.auto_acknowledge
      | none => false) = true
    · simp [hAck]
    · simp [hAck]

theorem processAlarmEvent_normal_autoAck (s : EngineState)
    (event : AlarmEvent) (now : ℤ) (oldId : Nat) (config : AlarmConfig)
    (hs : event.state = AlarmState.NORMAL)
    (hA : assocGet s.active_alarms event.tag_name = some oldId)
    (hc : assocGet s.alarms_config event.tag_name = some config)
    (hauto : config.auto_acknowledge = true)
    (hne : oldId ≠ s.next_id) :
    (processAlarmEvent s event now).1.events oldId =
      { s.events oldId with
        acknowledged := true, ack_timestamp := some now,
        ack_user := some "SYSTEM" }
    ∧ (processAlarmEvent s event now).1.events s.next_id = event
    ∧ assocGet (processAlarmEvent s event now).1.active_alarms event.tag_name
        = none := by
  unfold processAlarmEvent updateStatistics
  simp only [hs, ne_eq, not_true_eq_false, if_false, ite_false, dite_false, hA,
    hc, hauto, if_true, ite_true]
  refine ⟨?_, ?_, ?_⟩
  · simp [hne, Ne.symm hne]
  · simp [hne, Ne.symm hne]
  · simp [assocGet_erase_self]

theorem engineInv_fresh (cfgs : List AlarmConfig) :
    EngineInv (freshState cfgs) := by
  refine ⟨?_, ?_, ?_⟩
  · intro tag config h
    simp only [freshState] at h
    induction cfgs with
    | nil => simp [assocGet] at h
    | cons c rest ih =>
      simp only [List.map_cons, assocGet] at h
      by_cases hc : c.tag_name = tag
      · simp only [hc, if_true, ite_true, Option.some.injEq] at h
        rw [← h]
        exact hc
      · simp only [hc, if_false, ite_false] at h
        exact ih h
  · intro tag
    simp [freshState, assocGet]
  · intro tag
    simp [freshState]

theorem engineInv_process (s : EngineState) (event : AlarmEvent) (now : ℤ)
    (hkeys : ∀ t c, assocGet s.alarms_config t = some c → c.tag_name = t)
    (hcur : s.current_states event.tag_name = event.state)
    (hact : ∀ t, t ≠ event.tag_name →
      (assocGet s.active_alarms t ≠ none ↔
        s.current_states t ≠ AlarmState.NORMAL))
    (htim : ∀ t, s.alarm_timers t (s.current_states t) = none) :
    EngineInv (processAlarmEvent s event now).1 := by
  obtain ⟨-, hc', ht', hs', -, -, -, -, -, -⟩ := processAlarmEvent_frame s event now
  refine ⟨?_, ?_, ?_⟩
  · intro t c h
    exact hkeys t c (by rw [← hc']; exact h)
  · intro t
    rw [hs']
    by_cases hev : event.state = AlarmState.NORMAL
    · rw [processAlarmEvent_active_normal s event now hev]
      by_cases htg : t = event.tag_name
      · subst htg
        cases hA : assocGet s.active_alarms event.tag_name with
        | none => simp [hA, hcur, hev]
        | some oldId => simp [hA, assocGet_erase_self, hcur, hev]
      · cases hA : assocGet s.active_alarms event.tag_name with
        | none => simpa [hA] using hact t htg
        | some oldId =>
          simpa [hA, assocGet_erase_ne _ _ _ htg] using hact t htg
    · rw [processAlarmEvent_active_nonNormal s event now hev]
      by_cases htg : t = event.tag_name
      · subst htg
        simp [assocGet_set_self, hcur, hev]
      · simpa [assocGet_set_ne _ _ _ _ htg] using hact t htg
  · intro t
    rw [ht', hs']
    exact htim t

theorem engineInv_applyOp (s : EngineState) (op : EngineOp)
    (h : EngineInv s) : EngineInv (applyOp s op) := by
  obtain ⟨hkeys, hact, htim⟩ := h
  cases op with
  | ack tag user now =>
    simp only [applyOp]
    cases hA : assocGet s.active_alarms tag with
    | none =>
      simp only [acknowledgeAlarm, hA]
      exact ⟨hkeys, hact, htim⟩
    | some i =>
      simp only [acknowledgeAlarm, hA]
      exact ⟨hkeys, hact, htim⟩
  | eval tag value now =>
    simp only [applyOp]
    cases hcfg : assocGet s.alarms_config tag with
    | none =>
      simp only [evaluateTag, hcfg]
      exact ⟨hkeys, hact, htim⟩
    | some config =>
      by_cases hen : config.enabled = false
      · simp only [evaluateTag, hcfg, hen, if_true, ite_true]
        exact ⟨hkeys, hact, htim⟩
      · by_cases hsame : determineAlarmState config value = s.current_states tag
        · simp only [evaluateTag, hcfg, hen, hsame, if_true, ite_true,
            if_false, ite_false]
          exact ⟨hkeys, hact, htim⟩
        · cases ht : s.alarm_timers tag (determineAlarmState config value) with
          | none =>
            simp only [evaluateTag, hcfg, hen, hsame, if_false, ite_false, ht]
            refine ⟨hkeys, hact, fun t => ?_⟩
            by_cases hc : t = tag ∧ s.current_states t
                = determineAlarmState config value
            · exact absurd (hc.1 ▸ hc.2.symm) hsame
            · simpa [hc] using htim t
          | some t0 =>
            by_cases hlt : now - t0 < config.delay_seconds
            · simp only [evaluateTag, hcfg, hen, hsame, if_false, ite_false,
                ht, hlt, if_true, ite_true]
              exact ⟨hkeys, hact, htim⟩
            · cases hr : renderTemplate config value
                  (getActiveLimit config (determineAlarmState config value))
                  config.message_template with
              | error e =>
                simp only [evaluateTag, hcfg, hen, hsame, if_false, ite_false,
                  ht, hlt, createAlarmEvent, hr]
                refine ⟨hkeys, hact, fun t => ?_⟩
                by_cases hc : t = tag ∧ s.current_states t
                    = determineAlarmState config value
                · exact absurd (hc.1 ▸ hc.2.symm) hsame
                · simpa [hc] using htim t
              | ok m =>
                have hkey : config.tag_name = tag := hkeys tag config hcfg
                simp only [evaluateTag, hcfg, hen, hsame, if_false, ite_false,
                  ht, hlt, createAlarmEvent, hr]
                apply engineInv_process
                · intro t c hc
                  exact hkeys t c hc
                · show (if config.tag_name = tag
                      then determineAlarmState config value
                      else s.current_states config.tag_name)
                    = determineAlarmState config value
                  rw [hkey, if_pos rfl]
                · intro t htg
                  have htg' : t ≠ tag := by rw [← hkey]; exact htg
                  show assocGet s.active_alarms t ≠ none ↔
                    (if t = tag then determineAlarmState config value
                     else s.current_states t) ≠ AlarmState.NORMAL
                  rw [if_neg htg']
                  exact hact t
                · intro t
                  by_cases htg : t = tag
                  · subst htg
                    simp
                  · simp [htg, htim t]

theorem engineInv_runOps (cfgs : List AlarmConfig) (ops : List EngineOp) :
    EngineInv (runOps (freshState cfgs) ops) := by
  suffices h : ∀ s, EngineInv s → EngineInv (runOps s ops) from
    h _ (engineInv_fresh cfgs)
  induction ops with
  | nil => exact fun s h => h
  | cons op rest ih => exact fun s h => ih _ (engineInv_applyOp s op h)

/-- Claim C3: after every sequence of evaluate and acknowledge operations
starting from a freshly registered configuration (all confirmed levels
NORMAL, empty active table), a tag is a key of the active-alarm table iff
that tag's currently confirmed level is not NORMAL. -/
theorem activeTable_iff_confirmed_nonNormal (cfgs : List AlarmConfig)
    (ops : List EngineOp) (tag : String) :
    assocGet (runOps (freshState cfgs) ops).active_alarms tag ≠ none ↔
      (runOps (freshState cfgs) ops).current_states tag ≠ AlarmState.NORMAL :=
  (engineInv_runOps cfgs ops).2.1 tag

theorem activeTable_iff_confirmed_nonNormal_witness :
    (assocGet sW2.active_alarms "engine_temp_1" ≠ none ↔
      sW2.current_states "engine_temp_1" ≠ AlarmState.NORMAL)
    ∧ assocGet sW2.active_alarms "engine_temp_1" = some 0
    ∧ sW2.current_states "engine_temp_1" = AlarmState.WARNING := by
  refine ⟨?_, rfl, rfl⟩
  exact activeTable_iff_confirmed_nonNormal [cfgW]
    [EngineOp.eval "engine_temp_1" 95 1, EngineOp.eval "engine_temp_1" 95 3]
    "engine_temp_1"

/-- Claim C9: for reachable engine states, when the classified candidate
level equals the tag's confirmed level, evaluate returns no event and leaves
the whole engine state unchanged, and no pending timer keyed by
(tag, candidate) remains after the call (none can exist for the confirmed
level in any reachable state, so the spec's "clear" leaves none). -/
theorem evaluateTag_same_level_noop (cfgs : List AlarmConfig)
    (ops : List EngineOp) (tag : String) (value now : ℤ)
    (config : AlarmConfig)
    (hcfg : assocGet (runOps (freshState cfgs) ops).alarms_config tag
      = some config)
    (hen : config.enabled = true)
    (hsame : determineAlarmState config value
      = (runOps (freshState cfgs) ops).current_states tag) :
    evaluateTag (runOps (freshState cfgs) ops) tag value now
      = (runOps (freshState cfgs) ops, Except.ok none)
    ∧ (evaluateTag (runOps (freshState cfgs) ops) tag value now).1.alarm_timers
        tag (determineAlarmState config value) = none := by
  have heq : evaluateTag (runOps (freshState cfgs) ops) tag value now
      = (runOps (freshState cfgs) ops, Except.ok none) := by
    simp [evaluateTag, hcfg, hen, hsame]
  refine ⟨heq, ?_⟩
  rw [heq, hsame]
  exact (engineInv_runOps cfgs ops).2.2 tag

theorem evaluateTag_same_level_noop_witness :
    evaluateTag (runOps (freshState [cfgW]) []) "engine_temp_1" 85 0
      = (runOps (freshState [cfgW]) [], Except.ok none)
    ∧ (evaluateTag (runOps (freshState [cfgW]) [])
        "engine_temp_1" 85 0).1.alarm_timers "engine_temp_1"
        (determineAlarmState cfgW 85) = none :=
  evaluateTag_same_level_noop [cfgW] [] "engine_temp_1" 85 0 cfgW rfl rfl
    (by decide)

/-- Claim C1: debounce semantics of a candidate level differing from the
confirmed level — the first observation starts a pending timer at the
current time and confirms nothing; a later observation of the same candidate
before the delay has elapsed changes nothing; an observation at or after the
delay boundary confirms the transition, deletes the timer, sets the
confirmed level to the candidate, and returns an event carrying the new and
the previous confirmed level. -/
theorem evaluateTag_debounce (s : EngineState) (tag : String)
    (value now : ℤ) (config : AlarmConfig)
    (hcfg : assocGet s.alarms_config tag = some config)
    (hen : config.enabled = true)
    (hdiff : determineAlarmState config value ≠ s.current_states tag)
    (htpl : templateOk config.message_template = true) :
    (s.alarm_timers tag (determineAlarmState config value) = none →
       (evaluateTag s tag value now).2 = Except.ok none
       ∧ (evaluateTag s tag value now).1.alarm_timers tag
           (determineAlarmState config value) = some now
       ∧ (evaluateTag s tag value now).1.current_states = s.current_states
       ∧ (evaluateTag s tag value now).1.active_alarms = s.active_alarms
       ∧ (evaluateTag s tag value now).1.alarm_history = s.alarm_history)
    ∧ (∀ t0, s.alarm_timers tag (determineAlarmState config value) = some t0 →
        now - t0 < config.delay_seconds →
        evaluateTag s tag value now = (s, Except.ok none))
    ∧ (∀ t0, s.alarm_timers tag (determineAlarmState config value) = some t0 →
        config.delay_seconds ≤ now - t0 →
        (evaluateTag s tag value now).2 = Except.ok (some s.next_id)
        ∧ (evaluateTag s tag value now).1.alarm_timers tag
            (determineAlarmState config value) = none
        ∧ (evaluateTag s tag value now).1.current_states tag
            = determineAlarmState config value
        ∧ ((evaluateTag s tag value now).1.events s.next_id).state
            = determineAlarmState config value
        ∧ ((evaluateTag s tag value now).1.events s.next_id).previous_state
            = s.current_states tag) := by
  unfold evaluateTag
  simp only [hcfg, hen, Bool.true_eq_false, if_false, ite_false, hdiff, ne_eq]
  refine ⟨?_, ?_, ?_⟩
  · intro ht
    simp [ht, hdiff]
  · intro t0 ht hlt
    simp [ht, hdiff, hlt]
  · intro t0 ht hge
    have hnlt : ¬ (now - t0 < config.delay_seconds) := not_lt.mpr hge
    obtain ⟨m, hm⟩ := renderTemplate_ok_of_templateOk config value
      (getActiveLimit config (determineAlarmState config value))
      config.message_template htpl
    simp only [ht, hdiff, if_false, ite_false, hnlt, createAlarmEvent, hm]
    have hf := processAlarmEvent_frame
      { s with
        current_states := fun t =>
          if t = tag then determineAlarmState config value
          else s.current_states t,
        alarm_timers := fun t l =>
          if t = tag ∧ l = determineAlarmState config value then none
          else s.alarm_timers t l }
      { id := config.tag_name ++ "_" ++ toString (now * 1000),
        tag_name := config.tag_name, timestamp := now,
        state := determineAlarmState config value,
        previous_state := s.current_states tag, value := value, message := m,
        priority := config.priority, acknowledged := false,
        ack_timestamp := none, ack_user := none,
        auto_cleared := decide (determineAlarmState config value
          = AlarmState.NORMAL) }
      now
    obtain ⟨h1, -, h3, h4, -, -, h7, h8, -, -⟩ := hf
    exact ⟨by simp [h1], by simp [h3], by simp [h4], by simpa using h7,
      by simpa using h8⟩

theorem evaluateTag_debounce_witness :
    evaluateTag sW1 "engine_temp_1" 95 2 = (sW1, Except.ok none)
    ∧ (evaluateTag sW1 "engine_temp_1" 95 3).2 = Except.ok (some 0)
    ∧ (evaluateTag sW1 "engine_temp_1" 95 3).1.current_states "engine_temp_1"
        = AlarmState.WARNING
    ∧ ((evaluateTag sW1 "engine_temp_1" 95 3).1.events 0).previous_state
        = AlarmState.NORMAL := by
  have h2 := evaluateTag_debounce sW1 "engine_temp_1" 95 2 cfgW rfl rfl
    (by decide) (by decide)
  have h3 := evaluateTag_debounce sW1 "engine_temp_1" 95 3 cfgW rfl rfl
    (by decide) (by decide)
  have hb := h2.2.1 1 rfl (by decide)
  have hc := h3.2.2 1 rfl (by decide)
  exact ⟨hb, hc.1, hc.2.2.1, hc.2.2.2.2⟩

/-- Claim C4: when a confirmed transition into NORMAL occurs for a tag whose
config has auto-acknowledge enabled while an active entry exists, the
acknowledgment (acknowledged, the SYSTEM sentinel user, timestamp now) is
applied to the previously active event record, the tag's entry is removed
from the active table, and the newly created NORMAL-transition event is a
distinct record appended to History that stays unacknowledged and carries
auto-cleared = true. -/
theorem evaluateTag_auto_acknowledge (s : EngineState) (tag : String)
    (value now t0 : ℤ) (config : AlarmConfig) (oldId : Nat)
    (hcfg : assocGet s.alarms_config tag = some config)
    (hkey : config.tag_name = tag)
    (hen : config.enabled = true)
    (hauto : config.auto_acknowledge = true)
    (hclass : determineAlarmState config value = AlarmState.NORMAL)
    (hcur : s.current_states tag ≠ AlarmState.NORMAL)
    (htimer : s.alarm_timers tag AlarmState.NORMAL = some t0)
    (helapsed : config.delay_seconds ≤ now - t0)
    (hactive : assocGet s.active_alarms tag = some oldId)
    (hne : oldId ≠ s.next_id)
    (htpl : templateOk config.message_template = true) :
    (evaluateTag s tag value now).2 = Except.ok (some s.next_id)
    ∧ (evaluateTag s tag value now).1.events oldId =
        { s.events oldId with
          acknowledged := true, ack_timestamp := some now,
          ack_user := some "SYSTEM" }
    ∧ assocGet (evaluateTag s tag value now).1.active_alarms tag = none
    ∧ (evaluateTag s tag value now).1.alarm_history
        = s.alarm_history ++ [s.next_id]
    ∧ ((evaluateTag s tag value now).1.events s.next_id).state
        = AlarmState.NORMAL
    ∧ ((evaluateTag s tag value now).1.events s.next_id).acknowledged = false
    ∧ ((evaluateTag s tag value now).1.events s.next_id).auto_cleared
        = true := by
  have hdiff : ¬ (AlarmState.NORMAL = s.current_states tag) :=
    fun h => hcur h.symm
  have hnlt : ¬ (now - t0 < config.delay_seconds) := not_lt.mpr helapsed
  obtain ⟨m, hm⟩ := renderTemplate_ok_of_templateOk config value
    (getActiveLimit config AlarmState.NORMAL) config.message_template htpl
  unfold evaluateTag
  simp only [hcfg, hen, Bool.true_eq_false, if_false, ite_false, hclass,
    hdiff, htimer, hnlt, createAlarmEvent, hm, hkey, decide_True]
  have hfa := processAlarmEvent_normal_autoAck
    { s with
      current_states := fun t =>
        if t = tag then AlarmState.NORMAL else s.current_states t,
      alarm_timers := fun t l =>
        if t = tag ∧ l = AlarmState.NORMAL then none else s.alarm_timers t l }
    { id := tag ++ "_" ++ toString (now * 1000),
      tag_name := tag, timestamp := now,
      state := AlarmState.NORMAL, previous_state := s.current_states tag,
      value := value, message := m, priority := config.priority,
      acknowledged := false, ack_timestamp := none, ack_user := none,
      auto_cleared := true }
    now oldId config rfl hactive hcfg hauto hne
  have hff := processAlarmEvent_frame
    { s with
      current_states := fun t =>
        if t = tag then AlarmState.NORMAL else s.current_states t,
      alarm_timers := fun t l =>
        if t = tag ∧ l = AlarmState.NORMAL then none else s.alarm_timers t l }
    { id := tag ++ "_" ++ toString (now * 1000),
      tag_name := tag, timestamp := now,
      state := AlarmState.NORMAL, previous_state := s.current_states tag,
      value := value, message := m, priority := config.priority,
      acknowledged := false, ack_timestamp := none, ack_user := none,
      auto_cleared := true }
    now
  obtain ⟨hf1, -, -, -, hf5, -, -, -, -, -⟩ := hff
  obtain ⟨ha1, ha2, ha3⟩ := hfa
  refine ⟨by simp [hf1], ?_, ?_, by simp [hf5], ?_, ?_, ?_⟩
  · rw [ha1]
  · exact ha3
  · simp [ha2]
  · simp [ha2]
  · simp [ha2]

theorem evaluateTag_auto_acknowledge_witness :
    (evaluateTag sA "pump" 50 5).2 = Except.ok (some 1)
    ∧ (evaluateTag sA "pump" 50 5).1.events 0 =
        { sA.events 0 with
          acknowledged := true, ack_timestamp := some 5,
          ack_user := some "SYSTEM" }
    ∧ assocGet (evaluateTag sA "pump" 50 5).1.active_alarms "pump" = none
    ∧ (evaluateTag sA "pump" 50 5).1.alarm_history = sA.alarm_history ++ [1]
    ∧ ((evaluateTag sA "pump" 50 5).1.events 1).state = AlarmState.NORMAL
    ∧ ((evaluateTag sA "pump" 50 5).1.events 1).acknowledged = false
    ∧ ((evaluateTag sA "pump" 50 5).1.events 1).auto_cleared = true :=
  evaluateTag_auto_acknowledge sA "pump" 50 5 3 cfgA 0 rfl rfl rfl rfl
    (by decide) (by decide) rfl (by decide) rfl (by decide) (by decide)

/-- Claim C5 (evaluated at the failing input): with a registered, enabled
config whose template references the unknown field limit_c, a sample that
would confirm a WARNING transition (timer elapsed) raises instead of
degrading to a fallback message — the call returns an error, the confirmed
level stays NORMAL, nothing is appended to History and the active table
stays empty, while the pending timer has already been deleted. -/
theorem evaluateTag_bad_template_raises :
    (evaluateTag sB "boiler" 95 3).2 = Except.error ()
    ∧ (evaluateTag sB "boiler" 95 3).1.current_states "boiler"
        = AlarmState.NORMAL
    ∧ (evaluateTag sB "boiler" 95 3).1.alarm_history = []
    ∧ assocGet (evaluateTag sB "boiler" 95 3).1.active_alarms "boiler" = none
    ∧ (evaluateTag sB "boiler" 95 3).1.alarm_timers "boiler"
        AlarmState.WARNING = none
    ∧ determineAlarmState cfgB 95 = AlarmState.WARNING
    ∧ sB.alarm_timers "boiler" AlarmState.WARNING = some 0
    ∧ cfgB.delay_seconds ≤ (3 : ℤ) - 0 :=
  ⟨rfl, rfl, rfl, rfl, rfl, rfl, rfl, by decide⟩

/-- Claim C6 counterexample: with warning bounds 16 (low) and 28 (high),
value 15 breaches only the low threshold, yet the confirmed event's rendered
limit is 28 (the high threshold), not 16. -/
theorem limit_direction_counterexample :
    (evaluateTag sL "cabin_temp" 15 3).2 = Except.ok (some 0)
    ∧ ((evaluateTag sL "cabin_temp" 15 3).1.events 0).state
        = AlarmState.WARNING
    ∧ cfgL.warning_low = some 16
    ∧ cfgL.warning_high = some 28
    ∧ (15 : ℤ) ≤ 16
    ∧ ¬ ((28 : ℤ) ≤ 15)
    ∧ ((evaluateTag sL "cabin_temp" 15 3).1.events 0).message = "28"
    ∧ ((evaluateTag sL "cabin_temp" 15 3).1.events 0).message ≠ "16" :=
  ⟨rfl, rfl, rfl, rfl, by decide, by decide, rfl, by decide⟩

theorem getActiveLimit_highFirst (config : AlarmConfig) (st : AlarmState)
    (h : st ≠ AlarmState.NORMAL) :
    getActiveLimit config st
      = limitHighFirst (levelHigh config st) (levelLow config st) := by
  cases st with
  | NORMAL => exact absurd rfl h
  | WARNING =>
    cases config.warning_high with
    | some hi => rfl
    | none => cases config.warning_low with
      | some lo => rfl
      | none => rfl
  | CRITICAL =>
    cases config.critical_high with
    | some hi => rfl
    | none => cases config.critical_low with
      | some lo => rfl
      | none => rfl
  | EMERGENCY =>
    cases config.emergency_high with
    | some hi => rfl
    | none => cases config.emergency_low with
      | some lo => rfl
      | none => rfl

/-- Claim C6 (amended): for every confirmed transition into a non-NORMAL
level, the limit substituted into the rendered message is the new level's
high threshold whenever one is set — regardless of which direction the
value actually breached — else the new level's low threshold when one is
set, else N/A: rendering the template with that high-first limit reproduces
the confirmed event's message exactly, for every level, every template
whose fields lie in the substitution set, and every combination of
set/unset thresholds. -/
theorem evaluateTag_limit_high_preference (s : EngineState) (tag : String)
    (value now t0 : ℤ) (config : AlarmConfig) (L : AlarmState)
    (hcfg : assocGet s.alarms_config tag = some config)
    (hen : config.enabled = true)
    (hclass : determineAlarmState config value = L)
    (hL : L ≠ AlarmState.NORMAL)
    (hdiff : ¬ (L = s.current_states tag))
    (htimer : s.alarm_timers tag L = some t0)
    (helapsed : config.delay_seconds ≤ now - t0)
    (htpl : templateOk config.message_template = true) :
    (evaluateTag s tag value now).2 = Except.ok (some s.next_id)
    ∧ renderTemplate config value
        (limitHighFirst (levelHigh config L) (levelLow config L))
        config.message_template
      = Except.ok ((evaluateTag s tag value now).1.events
          s.next_id).message := by
  subst hclass
  have hnlt : ¬ (now - t0 < config.delay_seconds) := not_lt.mpr helapsed
  obtain ⟨m, hm⟩ := renderTemplate_ok_of_templateOk config value
    (getActiveLimit config (determineAlarmState config value))
    config.message_template htpl
  unfold evaluateTag
  simp only [hcfg, hen, Bool.true_eq_false, if_false, ite_false, hdiff,
    htimer, hnlt, createAlarmEvent, hm]
  have hff := processAlarmEvent_frame
    { s with
      current_states := fun t =>
        if t = tag then determineAlarmState config value
        else s.current_states t,
      alarm_timers := fun t l =>
        if t = tag ∧ l = determineAlarmState config value then none
        else s.alarm_timers t l }
    { id := config.tag_name ++ "_" ++ toString (now * 1000),
      tag_name := config.tag_name, timestamp := now,
      state := determineAlarmState config value,
      previous_state := s.current_states tag, value := value, message := m,
      priority := config.priority, acknowledged := false,
      ack_timestamp := none, ack_user := none,
      auto_cleared := decide (determineAlarmState config value
        = AlarmState.NORMAL) }
    now
  obtain ⟨hf1, -, -, -, -, -, -, -, hf9, -⟩ := hff
  refine ⟨by simp [hf1], ?_⟩
  rw [← getActiveLimit_highFirst config (determineAlarmState config value) hL]
  rw [hm]
  simp [hf9]

theorem evaluateTag_limit_high_preference_witness :
    (evaluateTag sL "cabin_temp" 15 3).2 = Except.ok (some 0)
    ∧ renderTemplate cfgL 15
        (limitHighFirst (levelHigh cfgL AlarmState.WARNING)
          (levelLow cfgL AlarmState.WARNING)) cfgL.message_template
      = Except.ok ((evaluateTag sL "cabin_temp" 15 3).1.events 0).message :=
  evaluateTag_limit_high_preference sL "cabin_temp" 15 3 0 cfgL
    AlarmState.WARNING rfl rfl (by decide) (by decide) (by decide) rfl
    (by decide) (by decide)

/-- Claim C7: acknowledge returns true iff the tag currently has an active
entry; on success it stamps acknowledged/timestamp/user on that entry
without removing it from the active table and without touching the other
engine components, a second acknowledge on the still-active tag returns
true again (re-stamping), and with no active entry it returns false and
changes no engine state. -/
theorem acknowledgeAlarm_spec (s : EngineState) (tag user : String) (now : ℤ) :
    ((acknowledgeAlarm s tag user now).2 = true ↔
      assocGet s.active_alarms tag ≠ none)
    ∧ (∀ i, assocGet s.active_alarms tag = some i →
        (acknowledgeAlarm s tag user now).1.events i =
          { s.events i with
            acknowledged := true, ack_timestamp := some now,
            ack_user := some user }
        ∧ (acknowledgeAlarm s tag user now).1.active_alarms = s.active_alarms
        ∧ (acknowledgeAlarm s tag user now).1.current_states = s.current_states
        ∧ (acknowledgeAlarm s tag user now).1.alarm_history = s.alarm_history
        ∧ ∀ user2 now2,
            (acknowledgeAlarm (acknowledgeAlarm s tag user now).1
              tag user2 now2).2 = true)
    ∧ (assocGet s.active_alarms tag = none →
        acknowledgeAlarm s tag user now = (s, false)) := by
  refine ⟨?_, ?_, ?_⟩
  · cases hA : assocGet s.active_alarms tag with
    | none => simp [acknowledgeAlarm, hA]
    | some i => simp [acknowledgeAlarm, hA]
  · intro i hA
    simp only [acknowledgeAlarm, hA]
    refine ⟨by simp, by trivial, by trivial, by trivial, ?_⟩
    intro user2 now2
    simp [acknowledgeAlarm, hA]
  · intro hA
    simp [acknowledgeAlarm, hA]

theorem filter_length_flip (l : List (String × Nat)) (f g : Nat → Bool)
    (i : Nat) (hcount : (l.map Prod.snd).count i = 1)
    (hne : ∀ j, j ≠ i → f j = g j) (hfi : f i = true) (hgi : g i = false) :
    (l.filter fun p => f p.2).length = (l.filter fun p => g p.2).length + 1 := by
  induction l with
  | nil => simp at hcount
  | cons p rest ih =>
    by_cases hp : p.2 = i
    · have hrest : (rest.map Prod.snd).count i = 0 := by
        simp only [List.map_cons, List.count_cons, hp, beq_self_eq_true,
          if_true, ite_true] at hcount
        omega
      have hcongr : (rest.filter fun q => f q.2)
          = (rest.filter fun q => g q.2) := by
        apply List.filter_congr
        intro q hq
        have hqi : q.2 ≠ i := by
          intro hqi
          exact (List.count_eq_zero.mp hrest)
            (hqi ▸ List.mem_map_of_mem Prod.snd hq)
        exact hne q.2 hqi
      simp [List.filter_cons, hp, hfi, hgi, hcongr]
    · have hrest : (rest.map Prod.snd).count i = 1 := by
        simpa [List.count_cons, hp] using hcount
      have hstep := ih hrest
      by_cases hf : f p.2 = true
      · have hg : g p.2 = true := by rw [← hne p.2 hp]; exact hf
        simp [List.filter_cons, hf, hg, hstep]
      · have hg : g p.2 = false := by
          rw [← hne p.2 hp]
          exact Bool.not_eq_true _ ▸ (by simpa using hf)
        simp [List.filter_cons, hf, hg, hstep]

/-- Claim C8 counterexample: immediately after a successful acknowledge of
the only active alarm, statistics reports acknowledged-active count 0 while
the active table holds exactly one acknowledged entry — the reported count
does not equal the actual count. -/
theorem statistics_stale_acknowledged_count :
    (acknowledgeAlarm sW2 "engine_temp_1" "OPERATOR" 4).2 = true
    ∧ (getStatistics
        (acknowledgeAlarm sW2 "engine_temp_1" "OPERATOR" 4).1).acknowledged_count
        = 0
    ∧ ((acknowledgeAlarm sW2 "engine_temp_1" "OPERATOR" 4).1.active_alarms.filter
        fun p => ((acknowledgeAlarm sW2 "engine_temp_1"
          "OPERATOR" 4).1.events p.2).acknowledged).length = 1
    ∧ (getStatistics
        (acknowledgeAlarm sW2 "engine_temp_1" "OPERATOR" 4).1).acknowledged_count
        ≠ ((acknowledgeAlarm sW2 "engine_temp_1" "OPERATOR" 4).1.active_alarms.filter
          fun p => ((acknowledgeAlarm sW2 "engine_temp_1"
            "OPERATOR" 4).1.events p.2).acknowledged).length :=
  ⟨rfl, rfl, rfl, by decide⟩

/-- Claim C8 (amended): immediately after a successful acknowledge of an
active, unacknowledged alarm (no intervening confirmed event), the
active-and-unacknowledged count reported by statistics is computed at query
time and decreases by one, while the reported acknowledged-active count is
the cached value from the last processed event and stays unchanged. -/
theorem getStatistics_after_acknowledge (s : EngineState) (tag user : String)
    (now : ℤ) (i : Nat)
    (hA : assocGet s.active_alarms tag = some i)
    (hunack : (s.events i).acknowledged = false)
    (hcount : (s.active_alarms.map Prod.snd).count i = 1) :
    (acknowledgeAlarm s tag user now).2 = true
    ∧ (getStatistics (acknowledgeAlarm s tag user now).1).acknowledged_count
        = s.stats_acked
    ∧ (getStatistics (acknowledgeAlarm s tag user now).1).unacknowledged_count
        + 1 = (getStatistics s).unacknowledged_count := by
  have hflip := filter_length_flip s.active_alarms
    (fun j => !(s.events j).acknowledged)
    (fun j => !(if j = i then
        { s.events i with
          acknowledged := true, ack_timestamp := some now,
          ack_user := some user }
      else s.events j).acknowledged)
    i hcount
    (fun j hj => by simp [hj])
    (by simp [hunack])
    (by simp)
  simp only [acknowledgeAlarm, hA]
  refine ⟨by trivial, by trivial, ?_⟩
  simpa [getStatistics] using hflip.symm

theorem getStatistics_after_acknowledge_witness :
    (acknowledgeAlarm sW2 "engine_temp_1" "OP" 4).2 = true
    ∧ (getStatistics
        (acknowledgeAlarm sW2 "engine_temp_1" "OP" 4).1).acknowledged_count
        = sW2.stats_acked
    ∧ (getStatistics
        (acknowledgeAlarm sW2 "engine_temp_1" "OP" 4).1).unacknowledged_count
        + 1 = (getStatistics sW2).unacknowledged_count :=
  getStatistics_after_acknowledge sW2 "engine_temp_1" "OP" 4 0 rfl rfl
    (by decide)

theorem acknowledgeAlarm_spec_witness :
    (acknowledgeAlarm sW2 "engine_temp_1" "OPERATOR" 4).2 = true
    ∧ (acknowledgeAlarm sW2 "engine_temp_1" "OPERATOR" 4).1.events 0 =
        { sW2.events 0 with
          acknowledged := true, ack_timestamp := some 4,
          ack_user := some "OPERATOR" }
    ∧ (acknowledgeAlarm sW2 "engine_temp_1" "OPERATOR" 4).1.active_alarms
        = sW2.active_alarms
    ∧ (acknowledgeAlarm (acknowledgeAlarm sW2 "engine_temp_1"
        "OPERATOR" 4).1 "engine_temp_1" "SUPERVISOR" 5).2 = true
    ∧ acknowledgeAlarm sW2 "fuel_pressure" "OPERATOR" 4 = (sW2, false) := by
  have h := acknowledgeAlarm_spec sW2 "engine_temp_1" "OPERATOR" 4
  have h2 := acknowledgeAlarm_spec sW2 "fuel_pressure" "OPERATOR" 4
  obtain ⟨he, ha, hb, -, hc⟩ := h.2.1 0 rfl
  exact ⟨h.1.mpr (by decide), he, ha, hc "SUPERVISOR" 5, h2.2.2 rfl⟩

/-- Claim C2: classification is severity-first — the result is EMERGENCY iff
an emergency bound is set and breached, otherwise CRITICAL iff a critical
bound is set and breached, otherwise WARNING iff a warning bound is set and
breached, otherwise NORMAL, for all combinations of set/unset thresholds; an
unset threshold never triggers and the most severe breached level wins. -/
theorem determineAlarmState_severity_first (config : AlarmConfig) (value : ℤ) :
    determineAlarmState config value =
      if emergencyBreached config value then AlarmState.EMERGENCY
      else if criticalBreached config value then AlarmState.CRITICAL
      else if warningBreached config value then AlarmState.WARNING
      else AlarmState.NORMAL := by
  unfold determineAlarmState emergencyBreached criticalBreached warningBreached
  by_cases h1 : breachHigh config.emergency_high value <;>
    by_cases h2 : breachLow config.emergency_low value <;>
    by_cases h3 : breachHigh config.critical_high value <;>
    by_cases h4 : breachLow config.critical_low value <;>
    by_cases h5 : breachHigh config.warning_high value <;>
    by_cases h6 : breachLow config.warning_low value <;>
    simp [h1, h2, h3, h4, h5, h6]

/-- Claim C10: classification never reads the deadband field — two configs
that differ only in their deadband classify every value identically. -/
theorem determineAlarmState_deadband_independent (config : AlarmConfig)
    (value : ℤ) (d : ℤ) :
    determineAlarmState { config with deadband := d } value
      = determineAlarmState config value := by
  rfl
